import Mathlib

/-!
Verification development for the browser-extension background worker
(`src/extension/scripts/background-worker.js`).

The worker is embedded shallowly:
* asynchronous `fetch` calls become explicit parameters holding the outcome
  of each network request (`Except` for rejection vs. a response record);
* a JS function that can reject becomes a Lean function returning `Except`;
* side effects that the claims count (HTTP requests issued, script
  injections performed) are returned explicitly (a list of requested URLs,
  an injection counter).
-/

namespace BackgroundWorker

/-! ## Identity resolver (`getSteamId`)

The source fetches `https://steamcommunity.com/my?xml=1`, reads the body as
text and matches it against the regular expression
`/<steamID64>(\d{17})<\/steamID64>/`, returning capture group 1 or `null`.
The regex is literal text around a fixed-width digit run, so matching at a
given position is deterministic; `findSteamId64` scans positions left to
right exactly as the JS regex engine does for this pattern. -/

/-- The literal opening tag of the pattern, `<steamID64>`. -/
def openTag : List Char := "<steamID64>".toList

/-- The literal closing tag of the pattern, `</steamID64>`. -/
def closeTag : List Char := "</steamID64>".toList

/-- Strip a literal tag from the front of a character list; `some rest`
exactly when the list is the tag followed by `rest`. -/
def stripTag : List Char → List Char → Option (List Char)
  | [], l => some l
  | _ :: _, [] => none
  | t :: ts, c :: cs => if c = t then stripTag ts cs else none

/-- Match the whole regex at the current position: literal `<steamID64>`,
then exactly 17 digit characters, then the literal `</steamID64>`.
Returns capture group 1 (the digits). -/
def matchSteamId64At (l : List Char) : Option (List Char) :=
  match stripTag openTag l with
  | none => none
  | some rest =>
    let ds := rest.take 17
    if ds.length = 17 ∧ ds.all Char.isDigit then
      match stripTag closeTag (rest.drop 17) with
      | none => none
      | some _ => some ds
    else none

/-- Left-to-right regex scan: first position where the pattern matches. -/
def findSteamId64 : List Char → Option (List Char)
  | [] => none
  | c :: cs =>
    match matchSteamId64At (c :: cs) with
    | some ds => some ds
    | none => findSteamId64 cs

/-- The body of the string does contain the steamID64 pattern somewhere:
the specification-level description of what the regex recognizes. -/
def hasSteamId64 (l : List Char) : Prop :=
  ∃ pre ds post, l = pre ++ openTag ++ ds ++ closeTag ++ post ∧
    ds.length = 17 ∧ ds.all Char.isDigit = true

/-- A profile HTTP response: its `ok` flag and status are available on the
JS `Response`, but `getSteamId` only ever reads the text body. -/
structure TextResp where
  ok : Bool
  status : Nat
  body : String

/-- Model of `getSteamId` from the source, over the outcome of the single profile
fetch (`Except.error` models a rejected `fetch`, i.e. a network failure;
`Except.ok` models any completed HTTP response, whatever its status).
The body is regex-matched; group 1 or `null` is returned. -/
def getSteamId (resp : Except String TextResp) : Except String (Option String) :=
  match resp with
  | .error e => .error e
  | .ok r => .ok ((findSteamId64 r.body.toList).map (fun ds => String.mk ds))

/-! ## Inventory fetcher (`fetchInventory`, `getUserInventory`)

The parsed JSON body of an inventory response. `assets` / `descriptions`
are `Option` because the JS code guards page 2's fields with `|| []` but
reads page 1's without a guard — an absent field there makes
`.concat` throw a `TypeError`. `more_items` models JS truthiness of the
field (absent/false/null are all falsy). Asset and description entries are
opaque; we model them as strings. -/

structure InvBody where
  assets : Option (List String)
  descriptions : Option (List String)
  more_items : Bool
  last_assetid : Option String
  deriving DecidableEq, Repr

/-- An inventory HTTP response that completed (did not reject): `ok` flag,
`statusText` and the parsed JSON body. -/
structure HttpResp where
  ok : Bool
  statusText : String
  body : InvBody
  deriving DecidableEq, Repr

/-- JS template-literal coercion of the nullable steam id: `null` prints
as the string `"null"`. -/
def jsNullStr : Option String → String
  | none => "null"
  | some s => s

/-- JS template-literal coercion of a possibly-absent `last_assetid`
(absent property reads as `undefined`, printing as `"undefined"`). -/
def jsUndefStr : Option String → String
  | none => "undefined"
  | some s => s

/-- Model of `fetchInventory` from the source. The outcomes of the (at most two)
network requests are passed in as `resp1`/`resp2` (`Except.error` = the
`fetch` promise rejected). The result pairs the function's outcome
(`Except.error` also covers `throw new Error(...)` and the uncaught
`TypeError` from `.concat` on an absent page-1 field) with the list of
request URLs actually issued, in order. -/
def fetchInventory (steamId : Option String) (appId contextId : String)
    (resp1 resp2 : Except String HttpResp) :
    Except String InvBody × List String :=
  let baseFetchUrl := "https://steamcommunity.com/inventory/" ++
    jsNullStr steamId ++ "/" ++ appId ++ "/" ++ contextId
  let url1 := baseFetchUrl ++ "?l=english&count=75"
  match resp1 with
  | .error e => (.error e, [url1])
  | .ok r1 =>
    if !r1.ok then
      (.error ("Failed to fetch inventory: " ++ r1.statusText), [url1])
    else
      let inventory := r1.body
      if inventory.more_items then
        let url2 := baseFetchUrl ++ "?l=english&count=2000&start_assetid=" ++
          jsUndefStr inventory.last_assetid
        match resp2 with
        | .error e => (.error e, [url1, url2])
        | .ok r2 =>
          if !r2.ok then
            (.error ("Failed to fetch additional inventory: " ++ r2.statusText),
              [url1, url2])
          else
            match inventory.assets, inventory.descriptions with
            | some a1, some d1 =>
              (.ok { assets := some (a1 ++ r2.body.assets.getD []),
                     descriptions := some (d1 ++ r2.body.descriptions.getD []),
                     more_items := r2.body.more_items,
                     last_assetid := r2.body.last_assetid },
                [url1, url2])
            | _, _ =>
              -- page 1's `assets`/`descriptions` was absent: `.concat` of
              -- `undefined` throws an uncaught TypeError
              (.error "TypeError: undefined has no method concat", [url1, url2])
      else
        (.ok inventory, [url1])

/-- Model of `getUserInventory` from the source: resolve the identity, then fetch the
inventory with whatever the resolver returned (including `null`). A
rejection from `getSteamId` propagates before any inventory request. -/
def getUserInventory (profile : Except String TextResp)
    (appId contextId : String) (resp1 resp2 : Except String HttpResp) :
    Except String InvBody × List String :=
  match getSteamId profile with
  | .error e => (.error e, [])
  | .ok steamId => fetchInventory steamId appId contextId resp1 resp2

/-! ## Readiness handshake (`ensureContentScript`)

The probe (`browser.tabs.sendMessage` with `content-script-check`) either
throws, returns `undefined` (Safari), or returns some defined value; the
injection primitive (`browser.scripting.executeScript`) either resolves or
rejects. Both are indexed by the attempt number. The result pairs the
outcome with the number of injection calls performed. -/

inductive ProbeRes where
  | threw
  | undef
  | defined
  deriving DecidableEq, Repr

/-- Model of `ensureContentScript` from the source. A non-`defined` probe result
lands in the `catch` block: inject, then retry once if `attempt` is 0,
otherwise throw the tab-naming error. -/
def ensureContentScript (tabId : Nat) (probe : Nat → ProbeRes)
    (inject : Nat → Except String Unit) (attempt : Nat) :
    Except String Bool × Nat :=
  match probe attempt with
  | .defined => (.ok true, 0)
  | _ =>
    match inject attempt with
    | .error e => (.error e, 1)
    | .ok _ =>
      if h : attempt = 0 then
        let r := ensureContentScript tabId probe inject 1
        (r.1, r.2 + 1)
      else
        (.error ("Failed to inject content script into tab " ++ toString tabId), 1)
termination_by 1 - attempt
decreasing_by simp_wf; omega

/-! ## Command dispatcher (`executeCommand` and the message listener) -/

/-- The response envelope delivered through `respond`. -/
inductive Envelope (α : Type) where
  | success (payload : α)
  | failure (error : String)
  deriving DecidableEq, Repr

/-- A thrown JS error, carrying its `message`. -/
structure JsError where
  message : String
  deriving DecidableEq, Repr

/-- Model of `executeCommand` from the source: run the component, `.then` wraps the
payload in a success envelope, `.catch` reduces any rejection to a failure
envelope carrying `err.message`. -/
def executeCommand {α : Type} (fn : Except JsError α) : Envelope α :=
  match fn with
  | .ok payload => .success payload
  | .error err => .failure err.message

/-- The `browser.runtime.onMessage` listener's dispatch on the `event`
field: the recognized command funnels through `executeCommand`; unknown
events are logged and produce no response (`none`). `outcome` is the
result of the invoked component (`getUserInventory`). -/
def onMessage {α : Type} (event : String) (outcome : Except JsError α) :
    Option (Envelope α) :=
  match event with
  | "get-inventory" => some (executeCommand outcome)
  | _ => none

/-! ## Permission sync engine (the `onAdded` / `onRemoved` listeners)

The single registered content-script rule; the process-wide registration
state is `Option RegisteredScript` (`none` = no registration). -/

structure RegisteredScript where
  id : String
  js : List String
  matchPatterns : List String
  runAt : String
  deriving DecidableEq, Repr

/-- JS `new Set([...])` spread back into an array: deduplicate keeping the
first occurrence of each element, preserving insertion order. -/
def setDedup (l : List String) : List String :=
  l.foldl (fun acc x => if acc.contains x then acc else acc ++ [x]) []

/-- The `browser.permissions.onAdded` listener: no-op on an empty origin
list; otherwise union the new origins into the current matches (insertion
order, deduplicated) and register or update — either way the resulting
state holds the new script. -/
def onAdded (state : Option RegisteredScript) (newOrigins : List String) :
    Option RegisteredScript :=
  if newOrigins.length = 0 then state
  else
    let currentMatches := (state.map RegisteredScript.matchPatterns).getD []
    let newScript : RegisteredScript :=
      { id := "content-script",
        js := ["scripts/content-script.js"],
        matchPatterns := setDedup (currentMatches ++ newOrigins),
        runAt := "document_idle" }
    some newScript

/-- The `browser.permissions.onRemoved` listener: no-op on an empty origin
list; otherwise drop the removed origins from the current matches (order
preserved). With a prior registration: update if the remainder is
non-empty, unregister otherwise. Without one: register only if the
remainder is non-empty (it never is, since it filters an empty list). -/
def onRemoved (state : Option RegisteredScript) (removedOrigins : List String) :
    Option RegisteredScript :=
  if removedOrigins.length = 0 then state
  else
    let newOrigins :=
      match state with
      | some s => s.matchPatterns.filter (fun o => !removedOrigins.contains o)
      | none => []
    let newScript : RegisteredScript :=
      { id := "content-script",
        js := ["scripts/content-script.js"],
        matchPatterns := newOrigins,
        runAt := "document_idle" }
    match state with
    | some _ =>
      if newScript.matchPatterns.length ≠ 0 then some newScript else none
    | none =>
      if newScript.matchPatterns.length ≠ 0 then some newScript else none

/-! ### Matcher lemmas -/

theorem stripTag_eq_some {tag l rest : List Char}
    (h : stripTag tag l = some rest) : l = tag ++ rest := by
  induction tag generalizing l with
  | nil =>
    have hl : l = rest := by simpa [stripTag] using h
    simp [hl]
  | cons t ts ih =>
    cases l with
    | nil => simp [stripTag] at h
    | cons c cs =>
      simp only [stripTag] at h
      split at h
      · next heq => simp [heq, ih h]
      · exact absurd h (by simp)

theorem stripTag_append (tag rest : List Char) :
    stripTag tag (tag ++ rest) = some rest := by
  induction tag with
  | nil => simp [stripTag]
  | cons t ts ih => simp [stripTag, ih]

theorem matchSteamId64At_sound {l ds : List Char}
    (h : matchSteamId64At l = some ds) :
    ∃ post, l = openTag ++ ds ++ closeTag ++ post ∧
      ds.length = 17 ∧ ds.all Char.isDigit = true := by
  unfold matchSteamId64At at h
  cases hstrip : stripTag openTag l with
  | none => rw [hstrip] at h; exact absurd h (by simp)
  | some rest =>
    rw [hstrip] at h
    simp only at h
    split at h
    · next hcond =>
      cases hclose : stripTag closeTag (rest.drop 17) with
      | none => rw [hclose] at h; exact absurd h (by simp)
      | some post =>
        rw [hclose] at h
        have hds : rest.take 17 = ds := by simpa using h
        refine ⟨post, ?_, ?_, ?_⟩
        · have hl := stripTag_eq_some hstrip
          have hrest : rest = ds ++ closeTag ++ post := by
            have hsplit : rest = rest.take 17 ++ rest.drop 17 :=
              (List.take_append_drop 17 rest).symm
            rw [hsplit, hds, stripTag_eq_some hclose, List.append_assoc]
          rw [hl, hrest]
          simp [List.append_assoc]
        · rw [← hds]; exact hcond.1
        · rw [← hds]; exact hcond.2
    · exact absurd h (by simp)

theorem matchSteamId64At_complete {ds post : List Char}
    (hlen : ds.length = 17) (hdig : ds.all Char.isDigit = true) :
    matchSteamId64At (openTag ++ ds ++ closeTag ++ post) = some ds := by
  unfold matchSteamId64At
  have h1 : stripTag openTag (openTag ++ (ds ++ closeTag ++ post)) =
      some (ds ++ closeTag ++ post) := stripTag_append _ _
  rw [show openTag ++ ds ++ closeTag ++ post =
        openTag ++ (ds ++ closeTag ++ post) by simp [List.append_assoc], h1]
  have htake : (ds ++ closeTag ++ post).take 17 = ds := by
    rw [List.append_assoc, ← hlen, List.take_left]
  have hdrop : (ds ++ closeTag ++ post).drop 17 = closeTag ++ post := by
    rw [List.append_assoc, ← hlen, List.drop_left]
  simp only [htake, hdrop, hlen, hdig, and_self, if_pos, stripTag_append]

theorem findSteamId64_sound {l ds : List Char}
    (h : findSteamId64 l = some ds) : hasSteamId64 l := by
  induction l with
  | nil => simp [findSteamId64] at h
  | cons c cs ih =>
    unfold findSteamId64 at h
    cases hm : matchSteamId64At (c :: cs) with
    | some ds' =>
      rw [hm] at h
      obtain ⟨post, hl, hlen, hdig⟩ := matchSteamId64At_sound hm
      exact ⟨[], ds', post, by simpa using hl, hlen, hdig⟩
    | none =>
      rw [hm] at h
      obtain ⟨pre, ds', post, hl, hlen, hdig⟩ := ih h
      exact ⟨c :: pre, ds', post, by simp [hl], hlen, hdig⟩

theorem findSteamId64_of_matchAt {l ds : List Char}
    (h : matchSteamId64At l = some ds) : (findSteamId64 l).isSome := by
  cases l with
  | nil =>
    rw [show matchSteamId64At [] = none from rfl] at h
    exact absurd h (by simp)
  | cons c cs =>
    unfold findSteamId64
    rw [h]
    simp

theorem findSteamId64_complete {l : List Char}
    (h : hasSteamId64 l) : (findSteamId64 l).isSome := by
  obtain ⟨pre, ds, post, hl, hlen, hdig⟩ := h
  subst hl
  induction pre with
  | nil =>
    exact findSteamId64_of_matchAt
      (by simpa using matchSteamId64At_complete hlen hdig)
  | cons c pre ih =>
    simp only [List.cons_append]
    unfold findSteamId64
    cases hm : matchSteamId64At
        (c :: (pre ++ openTag ++ ds ++ closeTag ++ post)) with
    | some ds' => simp
    | none => simpa using ih

/-! ## Claim theorems -/

/-- Shared helper: a completed profile response whose body lacks the
steamID64 pattern resolves to `Except.ok none`. -/
theorem getSteamId_eq_none (r : TextResp)
    (h : ¬ hasSteamId64 r.body.toList) :
    getSteamId (.ok r) = .ok none := by
  unfold getSteamId
  dsimp only
  cases hf : findSteamId64 r.body.toList with
  | none => rfl
  | some ds => exact absurd (findSteamId64_sound hf) h

/-- C6: for every profile-document body that does not contain the 17-digit
steamID64 pattern, `getSteamId` returns `null` and never throws — whatever
the response's status, a completed profile fetch with a pattern-free body
yields `Except.ok none`. -/
theorem C6_no_pattern_returns_null (r : TextResp)
    (h : ¬ hasSteamId64 r.body.toList) :
    getSteamId (.ok r) = .ok none :=
  getSteamId_eq_none r h

/-- Witness for C6 at the concrete body `"logged out"`. -/
theorem C6_witness :
    ¬ hasSteamId64 (String.toList "logged out") ∧
    getSteamId (.ok { ok := true, status := 200, body := "logged out" }) =
      .ok none := by
  have hn : ¬ hasSteamId64 (String.toList "logged out") := fun hp => by
    have hs := findSteamId64_complete hp
    rw [show findSteamId64 (String.toList "logged out") = none by decide] at hs
    simp at hs
  exact ⟨hn, C6_no_pattern_returns_null ⟨true, 200, "logged out"⟩ hn⟩

/-- Counterexample to C7 as stated: a non-2xx HTTP response to the profile
request (here a completed status-404 response with an empty body) does not
propagate a fetch-error — `getSteamId` returns the value `Except.ok none`,
because the source never consults `response.ok`/`status` on the profile
fetch (JS `fetch` only rejects on network failure, not on HTTP error
status). -/
theorem C7_counterexample :
    getSteamId (.ok { ok := false, status := 404, body := "" }) = .ok none := by
  rfl

/-- C7 (amended): for every network error during identity resolution (the
profile fetch rejects), `getSteamId` propagates the fetch-error to the
caller rather than returning a value. -/
theorem C7_network_error_propagates (e : String) :
    getSteamId (.error e) = .error e := rfl

/-- C4: for the recognized command `get-inventory`, dispatch responds with
an envelope that is either `success payload` or `failure message`: a
component failure is caught and reduced to a failure envelope carrying the
error's message, and the caller never observes a raw unhandled failure. -/
theorem C4_dispatch_envelope {α : Type} (outcome : Except JsError α) :
    ∃ env, onMessage "get-inventory" outcome = some env ∧
      ((∃ p, outcome = .ok p ∧ env = .success p) ∨
       (∃ e, outcome = .error e ∧ env = .failure e.message)) := by
  cases outcome with
  | ok p => exact ⟨.success p, rfl, .inl ⟨p, rfl, rfl⟩⟩
  | error e => exact ⟨.failure e.message, rfl, .inr ⟨e, rfl, rfl⟩⟩

/-- C8: starting from an absent companion-script registration, granting an
origin and then revoking the same origin leaves the registration absent. -/
theorem C8_grant_then_revoke (o : String) :
    onRemoved (onAdded none [o]) [o] = none := by
  unfold onAdded onRemoved setDedup
  simp

/-- C5: when page 1's response has `more_items = false`, `fetchInventory`
issues exactly one HTTP request (the page-1 URL only, whatever `resp2`
would have answered) and returns page 1's body unmodified. -/
theorem C5_single_page (steamId : Option String) (appId contextId : String)
    (r1 : HttpResp) (resp2 : Except String HttpResp)
    (h1 : r1.ok = true) (hm : r1.body.more_items = false) :
    fetchInventory steamId appId contextId (.ok r1) resp2 =
      (.ok r1.body,
        ["https://steamcommunity.com/inventory/" ++ jsNullStr steamId ++ "/" ++
          appId ++ "/" ++ contextId ++ "?l=english&count=75"]) := by
  unfold fetchInventory
  simp [h1, hm]

/-- Witness for C5: a concrete single-page fetch. -/
theorem C5_witness :
    fetchInventory (some "76561198000000000") "730" "2"
      (.ok { ok := true, statusText := "OK",
             body := { assets := some ["asset1"], descriptions := some ["desc1"],
                       more_items := false, last_assetid := none } })
      (.error "unused") =
      (.ok { assets := some ["asset1"], descriptions := some ["desc1"],
             more_items := false, last_assetid := none },
        ["https://steamcommunity.com/inventory/76561198000000000/730/2?l=english&count=75"]) :=
  C5_single_page (some "76561198000000000") "730" "2" _ _ rfl rfl

/-- C1: when page 1's response has `more_items = true` (and page 1 is a
well-formed inventory page, i.e. its `assets`/`descriptions` fields are
present), `fetchInventory` issues exactly two HTTP requests, merges the two
pages by concatenating `assets` and `descriptions` in fetch order (so the
lengths add), adopts page 2's `more_items`/`last_assetid`, and treats
absent `assets`/`descriptions` in page 2's body as empty sequences rather
than an error. -/
theorem C1_two_page_merge (steamId : Option String) (appId contextId : String)
    (r1 r2 : HttpResp) (a1 d1 : List String)
    (h1 : r1.ok = true) (hm : r1.body.more_items = true)
    (ha : r1.body.assets = some a1) (hd : r1.body.descriptions = some d1)
    (h2 : r2.ok = true) :
    (fetchInventory steamId appId contextId (.ok r1) (.ok r2)).2.length = 2 ∧
    (fetchInventory steamId appId contextId (.ok r1) (.ok r2)).1 =
      .ok { assets := some (a1 ++ r2.body.assets.getD []),
            descriptions := some (d1 ++ r2.body.descriptions.getD []),
            more_items := r2.body.more_items,
            last_assetid := r2.body.last_assetid } ∧
    (a1 ++ r2.body.assets.getD []).length =
      a1.length + (r2.body.assets.getD []).length ∧
    (d1 ++ r2.body.descriptions.getD []).length =
      d1.length + (r2.body.descriptions.getD []).length := by
  unfold fetchInventory
  simp [h1, hm, h2, ha, hd]

/-- Witness for C1: a concrete two-page fetch whose second page has an
absent `assets` field (treated as empty). -/
theorem C1_witness :
    (fetchInventory (some "76561198000000000") "730" "2"
      (.ok { ok := true, statusText := "OK",
             body := { assets := some ["a1", "a2"], descriptions := some ["d1"],
                       more_items := true, last_assetid := some "999" } })
      (.ok { ok := true, statusText := "OK",
             body := { assets := none, descriptions := some ["d2"],
                       more_items := false, last_assetid := none } })).2.length = 2 ∧
    (fetchInventory (some "76561198000000000") "730" "2"
      (.ok { ok := true, statusText := "OK",
             body := { assets := some ["a1", "a2"], descriptions := some ["d1"],
                       more_items := true, last_assetid := some "999" } })
      (.ok { ok := true, statusText := "OK",
             body := { assets := none, descriptions := some ["d2"],
                       more_items := false, last_assetid := none } })).1 =
      .ok { assets := some (["a1", "a2"] ++ (Option.none).getD []),
            descriptions := some (["d1"] ++ (some ["d2"]).getD []),
            more_items := false, last_assetid := none } ∧
    (["a1", "a2"] ++ ((Option.none : Option (List String))).getD []).length =
      (["a1", "a2"] : List String).length +
        (((Option.none : Option (List String))).getD []).length ∧
    (["d1"] ++ (some ["d2"]).getD []).length =
      (["d1"] : List String).length + ((some ["d2"]).getD ([] : List String)).length :=
  C1_two_page_merge (some "76561198000000000") "730" "2" _ _ _ _
    rfl rfl rfl rfl rfl

/-- Helper for the handshake proofs: on the retry attempt (`attempt = 1`),
a failing probe followed by a successful injection throws the tab-naming
error after that single injection. -/
theorem ensure_retry_fails (tabId : Nat) (probe : Nat → ProbeRes)
    (inject : Nat → Except String Unit)
    (hp1 : probe 1 ≠ .defined) (hi1 : inject 1 = .ok ()) :
    ensureContentScript tabId probe inject 1 =
      (.error ("Failed to inject content script into tab " ++ toString tabId), 1) := by
  unfold ensureContentScript
  cases hq : probe 1 with
  | defined => exact absurd hq hp1
  | threw => rw [hi1]; simp
  | undef => rw [hi1]; simp

/-- C2: for every tab whose liveness probe always fails (throws or returns
`undefined` on every attempt) while the injection primitive itself
succeeds, `ensureContentScript` performs exactly two injection attempts and
then fails with the injection error naming the tab; a third injection never
occurs. -/
theorem C2_probe_always_fails (tabId : Nat) (probe : Nat → ProbeRes)
    (inject : Nat → Except String Unit)
    (hp : ∀ n, probe n ≠ .defined) (hi : ∀ n, inject n = .ok ()) :
    ensureContentScript tabId probe inject 0 =
      (.error ("Failed to inject content script into tab " ++ toString tabId), 2) := by
  have hrec := ensure_retry_fails tabId probe inject (hp 1) (hi 1)
  unfold ensureContentScript
  cases hq : probe 0 with
  | defined => exact absurd hq (hp 0)
  | threw => rw [hi 0]; simp [hrec]
  | undef => rw [hi 0]; simp [hrec]

/-- Witness for C2: a probe that always throws, on tab 7. -/
theorem C2_witness :
    ensureContentScript 7 (fun _ => ProbeRes.threw) (fun _ => .ok ()) 0 =
      (.error ("Failed to inject content script into tab " ++ toString 7), 2) :=
  C2_probe_always_fails 7 (fun _ => ProbeRes.threw) (fun _ => .ok ())
    (fun n => by simp) (fun n => rfl)

/-- C9: if the liveness probe returns any defined response,
`ensureContentScript` reports ready with zero injection attempts; if the
probe returns `undefined` (the Safari quirk), the companion script is
treated as absent — at least one injection is attempted — never as ready
with zero injections. -/
theorem C9_defined_vs_undef (tabId : Nat) (probe : Nat → ProbeRes)
    (inject : Nat → Except String Unit) :
    (probe 0 = .defined →
      ensureContentScript tabId probe inject 0 = (.ok true, 0)) ∧
    (probe 0 = .undef →
      1 ≤ (ensureContentScript tabId probe inject 0).2) := by
  constructor
  · intro h
    unfold ensureContentScript
    rw [h]
  · intro h
    unfold ensureContentScript
    rw [h]
    cases hi : inject 0 with
    | error e => simp
    | ok u => simp

/-- Witness for C9: a probe answering `{}` (defined) reports ready with no
injection; a probe answering `undefined` leads to an injection attempt. -/
theorem C9_witness :
    ensureContentScript 3 (fun _ => ProbeRes.defined) (fun _ => .ok ()) 0 =
      (.ok true, 0) ∧
    1 ≤ (ensureContentScript 4 (fun _ => ProbeRes.undef) (fun _ => .ok ()) 0).2 :=
  ⟨(C9_defined_vs_undef 3 (fun _ => ProbeRes.defined) (fun _ => .ok ())).1 rfl,
   (C9_defined_vs_undef 4 (fun _ => ProbeRes.undef) (fun _ => .ok ())).2 rfl⟩

/-- C3: for every revocation event (non-empty, as delivered events are)
whose removal leaves the registered rule's match-pattern set empty, the
rule is unregistered entirely (`none`); and the registration is never
updated to an empty match set — any surviving registration has a non-empty
match list. -/
theorem C3_empty_remainder_unregisters (state : Option RegisteredScript)
    (removed : List String) (h : removed ≠ []) :
    (∀ s, state = some s →
      s.matchPatterns.filter (fun o => !removed.contains o) = [] →
      onRemoved state removed = none) ∧
    (∀ s', onRemoved state removed = some s' → s'.matchPatterns ≠ []) := by
  have hlen : ¬ removed.length = 0 := by simpa using h
  constructor
  · intro s hs hfilter
    subst hs
    unfold onRemoved
    rw [if_neg hlen]
    dsimp only
    rw [hfilter]
    simp
  · intro s' hs'
    unfold onRemoved at hs'
    rw [if_neg hlen] at hs'
    cases state with
    | none => simp at hs'
    | some s =>
      dsimp only at hs'
      split at hs'
      · next hne =>
        intro hempty
        rw [← Option.some.inj hs'] at hempty
        have hfil : s.matchPatterns.filter (fun o => !removed.contains o) = [] := by
          simpa using hempty
        rw [hfil] at hne
        exact hne rfl
      · exact absurd hs' (by simp)

/-- Witness for C3: revoking the last origin `https://a.com/*` removes the
registration rather than leaving it with empty matches. -/
theorem C3_witness :
    onRemoved
      (some { id := "content-script", js := ["scripts/content-script.js"],
              matchPatterns := ["https://a.com/*"], runAt := "document_idle" })
      ["https://a.com/*"] = none :=
  (C3_empty_remainder_unregisters
      (some { id := "content-script", js := ["scripts/content-script.js"],
              matchPatterns := ["https://a.com/*"], runAt := "document_idle" })
      ["https://a.com/*"] (by simp)).1 _ rfl (by decide)

/-- Helper: whatever the network answers, `fetchInventory` always issues
the page-1 request first, with the page-size-75 URL built from the
(JS-coerced) steam id. -/
theorem fetchInventory_first_url (steamId : Option String)
    (appId contextId : String) (resp1 resp2 : Except String HttpResp) :
    (fetchInventory steamId appId contextId resp1 resp2).2.head? =
      some ("https://steamcommunity.com/inventory/" ++ jsNullStr steamId ++
        "/" ++ appId ++ "/" ++ contextId ++ "?l=english&count=75") := by
  unfold fetchInventory
  rcases resp1 with e | r1
  · rfl
  · dsimp only
    split
    · rfl
    · split
      · rcases resp2 with e2 | r2
        · rfl
        · dsimp only
          split
          · rfl
          · split
            · rfl
            · rfl
      · rfl

/-- C10: when identity resolution yields `null` (pattern-free profile
body), `getUserInventory` does not short-circuit: it calls `fetchInventory`
with the null identity — the whole run equals `fetchInventory none …`, so
the outcome is whatever the remote answers — and the first inventory
request URL embeds the string `"null"` where the steam id belongs. -/
theorem C10_null_identity_flows_through (prof : TextResp)
    (appId contextId : String) (resp1 resp2 : Except String HttpResp)
    (h : ¬ hasSteamId64 prof.body.toList) :
    getUserInventory (.ok prof) appId contextId resp1 resp2 =
      fetchInventory none appId contextId resp1 resp2 ∧
    (getUserInventory (.ok prof) appId contextId resp1 resp2).2.head? =
      some ("https://steamcommunity.com/inventory/null/" ++ appId ++ "/" ++
        contextId ++ "?l=english&count=75") := by
  have hid : getSteamId (.ok prof) = .ok none := getSteamId_eq_none prof h
  unfold getUserInventory
  rw [hid]
  refine ⟨rfl, ?_⟩
  rw [fetchInventory_first_url none appId contextId resp1 resp2]
  rfl

/-- Witness for C10: a pattern-free profile body with a network failure on
the inventory request; the run is `fetchInventory` at the null identity
and the issued URL reads `…/inventory/null/730/2…`. -/
theorem C10_witness :
    ¬ hasSteamId64 (String.toList "logged out") ∧
    getUserInventory (.ok { ok := true, status := 200, body := "logged out" })
        "730" "2" (.error "offline") (.error "unused") =
      fetchInventory none "730" "2" (.error "offline") (.error "unused") ∧
    (getUserInventory (.ok { ok := true, status := 200, body := "logged out" })
        "730" "2" (.error "offline") (.error "unused")).2.head? =
      some ("https://steamcommunity.com/inventory/null/" ++ "730" ++ "/" ++
        "2" ++ "?l=english&count=75") := by
  have hn : ¬ hasSteamId64 (String.toList "logged out") := fun hp => by
    have hs := findSteamId64_complete hp
    rw [show findSteamId64 (String.toList "logged out") = none by decide] at hs
    simp at hs
  exact ⟨hn, C10_null_identity_flows_through
    ⟨true, 200, "logged out"⟩ "730" "2" (.error "offline") (.error "unused") hn⟩

end BackgroundWorker
